import Mathlib

/-!
Verification of the dispatch-and-confirm engine of `automated_SMS_Sender.py`.

The Python source is shallowly embedded as executable Lean definitions:

* `is_valid_phone_number`  — the phone validation `re.match(r'^\+\d+$', phone)`.
* `renderTemplate`         — `message_template.replace("{Name}", customer_name)`.
* `checkStatusLoop` / `check_message_status` — the bounded status-polling loop.
* `runOutcomes`, `submittedJobs`, `completedSids`, `send_sms` — the engine part
  of the `send_sms` coordinator: preflight checks, per-row filtering, dispatch
  of eligible rows, collection of message SIDs (with the source's attribution
  of every SID tuple to the loop variable `row`, which after the submission
  loop holds the last iterated row), and the final status-check phase.

Provider effects are abstracted as oracles: `o : Nat → Option String` gives the
result of the j-th submitted send (`send_single_sms` returns the SID, or `None`
when the Twilio call raised and the `except` branch ran), `cord : List Nat`
gives the completion order that `as_completed` yields the futures in, and
`fetch : String → Nat → Except String String` gives the status string (or the
raised exception's message) of the i-th fetch for a given SID.
-/

/-- A row of the loaded spreadsheet: the `Name` and `Phone Number` columns,
with the phone already passed through `str(...)` as the source does. -/
structure Recipient where
  name : String
  phone : String
deriving DecidableEq, Repr

/-- Embedding of `is_valid_phone_number`, i.e. of
`re.match(r'^\+\d+$', phone) is not None`.  Python's `re.match` anchors at the
start, and `$` (without `re.MULTILINE`) matches at the end of the string or
just before a single newline at the end of the string, so a phone such as
`"+1\n"` is accepted by the source.  Python's `\d` also covers non-ASCII
Unicode decimal digits; this embedding models the ASCII fragment
(`Char.isDigit`), which is the fragment the spec's `[0-9]` speaks about. -/
def is_valid_phone_number (phone : String) : Bool :=
  match phone.toList with
  | [] => false
  | c :: rest =>
    let core := if rest.getLast? = some '\n' then rest.dropLast else rest
    c == '+' && !core.isEmpty && core.all Char.isDigit

/-- Modelled from the spec's words: a phone string matches `^\+[0-9]+$`
("digits only after a leading `+`") iff it is a literal `+` followed by one or
more ASCII digits and nothing else.  Kept separate from
`is_valid_phone_number` so the two can be compared. -/
def matchesSpecPhoneRegex (phone : String) : Bool :=
  match phone.toList with
  | [] => false
  | c :: rest => c == '+' && !rest.isEmpty && rest.all Char.isDigit

/-- The placeholder pattern of the template language, `"{Name}"`. -/
def namePat : List Char := "{Name}".toList

/-- Embedding of `message_template.replace("{Name}", customer_name)`:
Python's `str.replace` substitutes every non-overlapping occurrence scanning
left to right and never rescans the replacement text.  A template shorter
than the six-character pattern cannot contain it and passes through. -/
def renderTemplate (name : List Char) : List Char → List Char
  | c1 :: c2 :: c3 :: c4 :: c5 :: c6 :: rest =>
    if [c1, c2, c3, c4, c5, c6] = namePat then
      name ++ renderTemplate name rest
    else
      c1 :: renderTemplate name (c2 :: c3 :: c4 :: c5 :: c6 :: rest)
  | t => t

/-- Number of non-overlapping occurrences of `"{Name}"` under the same
left-to-right scan that `renderTemplate` performs. -/
def countNamePat : List Char → Nat
  | c1 :: c2 :: c3 :: c4 :: c5 :: c6 :: rest =>
    if [c1, c2, c3, c4, c5, c6] = namePat then
      countNamePat rest + 1
    else
      countNamePat (c2 :: c3 :: c4 :: c5 :: c6 :: rest)
  | _ => 0

/-- Whether the scan of `renderTemplate` finds any `"{Name}"` occurrence. -/
def containsNamePat : List Char → Bool
  | c1 :: c2 :: c3 :: c4 :: c5 :: c6 :: rest =>
    if [c1, c2, c3, c4, c5, c6] = namePat then true
    else containsNamePat (c2 :: c3 :: c4 :: c5 :: c6 :: rest)
  | _ => false

/-- The per-row result of the submission loop of `send_sms`, one constructor
per code path a row of `customer_data` can take: skipped by the
`is_valid_phone_number` check (line 134), skipped by the `opted_out_numbers`
check (line 138), or submitted to `send_single_sms`, whose future yields the
message SID on success and `None` when the Twilio call raised. -/
inductive SendOutcome where
  | sent (messageId : String)
  | sendFailed
  | skippedInvalidPhone
  | skippedOptedOut
deriving DecidableEq, Repr

/-- A row passes both filter checks and is submitted to the pool. -/
def eligibleRecipient (opted_out : List String) (r : Recipient) : Bool :=
  is_valid_phone_number r.phone && !(opted_out.contains r.phone)

/-- The code path taken for one row, given the send oracle `o` and the index
`j` this row's job would get in submission order. -/
def classifyOutcome (opted_out : List String) (o : Nat → Option String)
    (j : Nat) (r : Recipient) : SendOutcome :=
  if is_valid_phone_number r.phone = false then .skippedInvalidPhone
  else if opted_out.contains r.phone then .skippedOptedOut
  else match o j with
    | some sid => .sent sid
    | none => .sendFailed

/-- The outcome trace of the submission loop: one entry per row of
`customer_data`, in iteration order, paired with the path that row took.
Eligible rows consume submission indices `j, j+1, ...` in order. -/
def runOutcomes (opted_out : List String) (o : Nat → Option String) :
    List Recipient → Nat → List (Recipient × SendOutcome)
  | [], _ => []
  | r :: rs, j =>
    (r, classifyOutcome opted_out o j r) ::
      runOutcomes opted_out o rs (if eligibleRecipient opted_out r then j + 1 else j)

/-- The provider send calls performed by the pool: one
`client.messages.create` call per eligible row, carrying that row's name,
phone, and rendered body, in submission order. -/
def submittedJobs (opted_out : List String) (template : String) :
    List Recipient → List (String × String × String)
  | [] => []
  | r :: rs =>
    if eligibleRecipient opted_out r then
      (r.name, r.phone, String.mk (renderTemplate r.name.toList template.toList)) ::
        submittedJobs opted_out template rs
    else submittedJobs opted_out template rs

/-- Number of jobs submitted to the pool for the given rows. -/
def jobCount (opted_out : List String) (rows : List Recipient) : Nat :=
  (rows.filter (eligibleRecipient opted_out)).length

/-- `Name` of the row held by the loop variable `row` after the submission
loop finishes, i.e. of the last iterated row. -/
def lastRowName (rows : List Recipient) : String :=
  match rows.getLast? with
  | some r => r.name
  | none => ""

/-- `Phone Number` of the row held by `row` after the submission loop. -/
def lastRowPhone (rows : List Recipient) : String :=
  match rows.getLast? with
  | some r => r.phone
  | none => ""

/-- The `message_sids` list built by the `as_completed` loop: the futures are
observed in completion order `cord`; a future whose result is a SID appends
the tuple `(message_sid, row['Name'], row['Phone Number'])` — where `row`
still holds the last iterated row of `customer_data`, not the row the
completed future belongs to. -/
def completedSids (o : Nat → Option String) (cord : List Nat)
    (nm ph : String) : List (String × String × String) :=
  cord.filterMap (fun j => (o j).map (fun sid => (sid, nm, ph)))

/-- The code path `check_message_status` ends on: a fetched status equal to
`"delivered"` (returns `True`), a fetched status in
`["failed", "undelivered"]` (returns `False`), ten fetches without a terminal
status (returns `False` after the loop), or an exception raised during a
fetch (the `except` branch, returns `False`). -/
inductive PollResult where
  | delivered
  | failedStatus
  | unknownStatus
  | fetchError
deriving DecidableEq, Repr

/-- The `bool` that `check_message_status` returns on each path. -/
def statusBool : PollResult → Bool
  | .delivered => true
  | .failedStatus => false
  | .unknownStatus => false
  | .fetchError => false

/-- The spec's three-valued delivery classification, read off the
observations: `Delivered` iff a `"delivered"` status was fetched, `Failed`
iff a `"failed"`/`"undelivered"` status was fetched, and `Unknown` when no
terminal status was observed — both when the polling budget ran out and when
a fetch raised (the source returns `False` and logs in both cases). -/
inductive DeliveryOutcome where
  | Delivered
  | Failed
  | Unknown
deriving DecidableEq, Repr

/-- Map a poll code path to the spec's delivery classification. -/
def deliveryOutcome : PollResult → DeliveryOutcome
  | .delivered => .Delivered
  | .failedStatus => .Failed
  | .unknownStatus => .Unknown
  | .fetchError => .Unknown

/-- The `for _ in range(10)` loop of `check_message_status`.  `fetch i` is
the outcome of the i-th `client.messages(message_sid).fetch().status` call
(`Except.error` models a raised exception, which aborts the whole loop into
the `except` branch).  Returns the ending path and the number of fetch calls
made. -/
def checkStatusLoop (fetch : Nat → Except String String) :
    Nat → Nat → PollResult × Nat
  | 0, calls => (.unknownStatus, calls)
  | fuel + 1, calls =>
    match fetch calls with
    | .error _ => (.fetchError, calls + 1)
    | .ok st =>
      if st = "delivered" then (.delivered, calls + 1)
      else if st ∈ ["failed", "undelivered"] then (.failedStatus, calls + 1)
      else checkStatusLoop fetch fuel (calls + 1)

/-- Embedding of `check_message_status`: up to ten status fetches. -/
def check_message_status (fetch : Nat → Except String String) :
    PollResult × Nat :=
  checkStatusLoop fetch 10 0

/-- A fetched status string that keeps the loop polling. -/
def nonTerminalStatus (st : String) : Prop :=
  st ≠ "delivered" ∧ st ∉ ["failed", "undelivered"]

instance (st : String) : Decidable (nonTerminalStatus st) := by
  unfold nonTerminalStatus
  infer_instance

/-- The status-check phase of `send_sms`: one `check_message_status` call per
tuple of `message_sids`, in list order, keyed by the tuple's SID. -/
def pollPhase (fetch : String → Nat → Except String String)
    (sids : List (String × String × String)) :
    List (String × String × String × PollResult × Nat) :=
  sids.map (fun t =>
    (t.1, t.2.1, t.2.2, (check_message_status (fetch t.1)).1,
      (check_message_status (fetch t.1)).2))

/-- The inputs `send_sms` reads: the loaded spreadsheet (`none` when no file
was loaded), the three credential fields, the template text box, whether
the `client.api.accounts(...).fetch()` credential check succeeds, and the
opt-out set. -/
structure SmsConfig where
  customer_data : Option (List Recipient)
  account_sid : String
  auth_token : String
  twilio_phone_number : String
  message_template : String
  authOk : Bool
  opted_out_numbers : List String
deriving Repr

/-- The early-return paths of `send_sms` before any message is sent, in the
order the source checks them. -/
inductive PreflightError where
  | missingData
  | missingCredentials
  | missingTemplate
  | authFailed
deriving DecidableEq, Repr

/-- Everything a completed run produced: the per-row outcome trace of the
submission loop, the provider send calls made, the `message_sids` list, and
the status-check phase results. -/
structure RunResult where
  outcomes : List (Recipient × SendOutcome)
  jobs : List (String × String × String)
  message_sids : List (String × String × String)
  polls : List (String × String × String × PollResult × Nat)
deriving DecidableEq, Repr

instance : DecidableEq (Except PreflightError RunResult) := fun a b =>
  match a, b with
  | .ok x, .ok y =>
    if h : x = y then isTrue (by rw [h]) else isFalse (fun hab => h (Except.ok.inj hab))
  | .error x, .error y =>
    if h : x = y then isTrue (by rw [h]) else isFalse (fun hab => h (Except.error.inj hab))
  | .ok _, .error _ => isFalse (fun hab => Except.noConfusion hab)
  | .error _, .ok _ => isFalse (fun hab => Except.noConfusion hab)

/-- Embedding of the `send_sms` coordinator: the four preflight checks in
source order, then the submission loop, the `as_completed` collection loop
(completion order `cord`), and the status-check phase. -/
def send_sms (cfg : SmsConfig) (o : Nat → Option String) (cord : List Nat)
    (fetch : String → Nat → Except String String) :
    Except PreflightError RunResult :=
  match cfg.customer_data with
  | none => .error .missingData
  | some rows =>
    if cfg.account_sid = "" ∨ cfg.auth_token = "" ∨ cfg.twilio_phone_number = "" then
      .error .missingCredentials
    else if cfg.message_template = "" then .error .missingTemplate
    else if cfg.authOk = false then .error .authFailed
    else
      let sids := completedSids o cord (lastRowName rows) (lastRowPhone rows)
      .ok
        { outcomes := runOutcomes cfg.opted_out_numbers o rows 0
          jobs := submittedJobs cfg.opted_out_numbers cfg.message_template rows
          message_sids := sids
          polls := pollPhase fetch sids }

/-! ## Helper lemmas about the renderer -/

theorem renderTemplate_pat_cons (name rest : List Char) :
    renderTemplate name (namePat ++ rest) = name ++ renderTemplate name rest := by
  have hnp : namePat = [Char.ofNat 123, 'N', 'a', 'm', 'e', Char.ofNat 125] := by
    decide
  rw [hnp]
  simp only [List.cons_append, List.nil_append]
  rw [renderTemplate.eq_1, if_pos hnp.symm]

theorem countNamePat_pat_cons (rest : List Char) :
    countNamePat (namePat ++ rest) = countNamePat rest + 1 := by
  have hnp : namePat = [Char.ofNat 123, 'N', 'a', 'm', 'e', Char.ofNat 125] := by
    decide
  rw [hnp]
  simp only [List.cons_append, List.nil_append]
  rw [countNamePat.eq_1, if_pos hnp.symm]

theorem renderTemplate_of_not_contains (name t : List Char)
    (h : containsNamePat t = false) : renderTemplate name t = t := by
  induction t using renderTemplate.induct name with
  | case1 c1 c2 c3 c4 c5 c6 rest hc ih =>
    rw [containsNamePat, if_pos hc] at h
    exact absurd h (by decide)
  | case2 c1 c2 c3 c4 c5 c6 rest hc ih =>
    rw [containsNamePat, if_neg hc] at h
    rw [renderTemplate.eq_1, if_neg hc, ih h]
  | case3 t hno => exact renderTemplate.eq_2 name t hno

theorem renderTemplate_length (name t : List Char) :
    (renderTemplate name t).length + namePat.length * countNamePat t =
      t.length + name.length * countNamePat t := by
  induction t using renderTemplate.induct name with
  | case1 c1 c2 c3 c4 c5 c6 rest hc ih =>
    rw [renderTemplate.eq_1, countNamePat.eq_1, if_pos hc, if_pos hc]
    have hnp : namePat.length = 6 := by decide
    simp only [List.length_append, List.length_cons, Nat.mul_add, Nat.mul_one,
      hnp] at ih ⊢
    omega
  | case2 c1 c2 c3 c4 c5 c6 rest hc ih =>
    rw [renderTemplate.eq_1, countNamePat.eq_1, if_neg hc, if_neg hc]
    simp only [List.length_cons] at ih ⊢
    omega
  | case3 t hno =>
    rw [renderTemplate.eq_2 name t hno, countNamePat.eq_2 t hno]
    simp

/-! ## Helper lemmas about the status-poll loop -/

theorem checkStatusLoop_calls_le (fetch : Nat → Except String String)
    (fuel calls : Nat) : (checkStatusLoop fetch fuel calls).2 ≤ calls + fuel := by
  induction fuel generalizing calls with
  | zero => rw [checkStatusLoop]; dsimp only; omega
  | succ n ih =>
    rw [checkStatusLoop]
    split
    · dsimp only
      omega
    · split
      · dsimp only
        omega
      · split
        · dsimp only
          omega
        · have := ih (calls + 1)
          omega

theorem checkStatusLoop_skip (fetch : Nat → Except String String)
    (fuel calls : Nat) (st : String) (hf : fetch calls = .ok st)
    (hnt : nonTerminalStatus st) :
    checkStatusLoop fetch (fuel + 1) calls = checkStatusLoop fetch fuel (calls + 1) := by
  rw [checkStatusLoop, hf]
  simp only [hnt.1, hnt.2, if_false]

theorem checkStatusLoop_advance (fetch : Nat → Except String String)
    (k fuel calls : Nat) (hk : k ≤ fuel)
    (h : ∀ j, j < k → ∃ st, fetch (calls + j) = .ok st ∧ nonTerminalStatus st) :
    checkStatusLoop fetch fuel calls = checkStatusLoop fetch (fuel - k) (calls + k) := by
  induction k generalizing fuel calls with
  | zero => simp
  | succ n ih =>
    obtain ⟨fuel', rfl⟩ : ∃ m, fuel = m + 1 := ⟨fuel - 1, by omega⟩
    obtain ⟨st, hst, hnt⟩ := h 0 (by omega)
    rw [Nat.add_zero] at hst
    rw [checkStatusLoop_skip fetch fuel' calls st hst hnt]
    rw [ih fuel' (calls + 1) (by omega)
      (fun j hj => by
        obtain ⟨st', hst', hnt'⟩ := h (j + 1) (by omega)
        refine ⟨st', ?_, hnt'⟩
        have harg : calls + 1 + j = calls + (j + 1) := by omega
        rw [harg]
        exact hst')]
    have e1 : fuel' + 1 - (n + 1) = fuel' - n := by omega
    have e2 : calls + (n + 1) = calls + 1 + n := by omega
    rw [e1, e2]

theorem checkStatusLoop_congr (fetch fetch2 : Nat → Except String String)
    (fuel calls : Nat)
    (h : ∀ j, calls ≤ j → j < calls + fuel → fetch j = fetch2 j) :
    checkStatusLoop fetch fuel calls = checkStatusLoop fetch2 fuel calls := by
  induction fuel generalizing calls with
  | zero => simp [checkStatusLoop]
  | succ n ih =>
    rw [checkStatusLoop, checkStatusLoop]
    rw [← h calls (by omega) (by omega)]
    match hf : fetch calls with
    | .error e => rfl
    | .ok st =>
      by_cases hd : st = "delivered"
      · simp [hd]
      · by_cases hfl : st ∈ ["failed", "undelivered"]
        · simp [hd, hfl]
        · simp only [hd, hfl, if_false]
          exact ih (calls + 1) (fun j h1 h2 => h j (by omega) (by omega))

/-! ## Helper lemmas about the submission loop -/

theorem runOutcomes_length (opted_out : List String) (o : Nat → Option String)
    (rows : List Recipient) (j : Nat) :
    (runOutcomes opted_out o rows j).length = rows.length := by
  induction rows generalizing j with
  | nil => rfl
  | cons r rs ih => simp [runOutcomes, ih]

theorem runOutcomes_map_fst (opted_out : List String) (o : Nat → Option String)
    (rows : List Recipient) (j : Nat) :
    (runOutcomes opted_out o rows j).map Prod.fst = rows := by
  induction rows generalizing j with
  | nil => rfl
  | cons r rs ih => simp [runOutcomes, ih]

theorem jobCount_take_succ_cons (opted_out : List String) (r : Recipient)
    (rs : List Recipient) (i : Nat) :
    jobCount opted_out ((r :: rs).take (i + 1)) =
      (if eligibleRecipient opted_out r then 1 else 0) + jobCount opted_out (rs.take i) := by
  rw [List.take_succ_cons, jobCount, jobCount, List.filter_cons]
  by_cases h : eligibleRecipient opted_out r
  · rw [if_pos h, if_pos h, List.length_cons]
    omega
  · rw [if_neg h, if_neg h]
    omega

theorem runOutcomes_getElem? (opted_out : List String) (o : Nat → Option String)
    (rows : List Recipient) (j i : Nat) :
    (runOutcomes opted_out o rows j)[i]? =
      (rows[i]?).map
        (fun r => (r, classifyOutcome opted_out o (j + jobCount opted_out (rows.take i)) r)) := by
  induction rows generalizing j i with
  | nil => simp [runOutcomes]
  | cons r rs ih =>
    cases i with
    | zero => simp [runOutcomes, jobCount]
    | succ n =>
      rw [runOutcomes]
      simp only [List.getElem?_cons_succ]
      rw [ih, jobCount_take_succ_cons]
      by_cases h : eligibleRecipient opted_out r
      · rw [if_pos h, if_pos h]
        have heq : j + (1 + jobCount opted_out (List.take n rs)) =
            j + 1 + jobCount opted_out (List.take n rs) := by omega
        rw [heq]
      · rw [if_neg h, if_neg h]
        have heq : j + (0 + jobCount opted_out (List.take n rs)) =
            j + jobCount opted_out (List.take n rs) := by omega
        rw [heq]

theorem submittedJobs_phone_ok (opted_out : List String) (template : String)
    (rows : List Recipient) :
    ∀ t ∈ submittedJobs opted_out template rows,
      is_valid_phone_number t.2.1 = true ∧ opted_out.contains t.2.1 = false := by
  induction rows with
  | nil => intro t ht; simp [submittedJobs] at ht
  | cons r rs ih =>
    intro t ht
    rw [submittedJobs] at ht
    by_cases h : eligibleRecipient opted_out r
    · simp only [h, if_true, List.mem_cons] at ht
      rcases ht with rfl | ht
      · unfold eligibleRecipient at h
        simp only [Bool.and_eq_true, Bool.not_eq_true'] at h
        exact ⟨h.1, h.2⟩
      · exact ih t ht
    · simp only [h, if_false] at ht
      exact ih t ht

theorem matchesSpecPhoneRegex_valid (phone : String)
    (h : matchesSpecPhoneRegex phone = true) : is_valid_phone_number phone = true := by
  rw [matchesSpecPhoneRegex] at h
  rw [is_valid_phone_number]
  match hl : phone.toList with
  | [] =>
    rw [hl] at h
    exact absurd h (by decide)
  | c :: rest =>
    rw [hl] at h
    simp only [Bool.and_eq_true] at h
    obtain ⟨⟨hc, hne⟩, hall⟩ := h
    have hlast : ¬(rest.getLast? = some '\n') := by
      intro habs
      have hmem : '\n' ∈ rest := by
        obtain ⟨hnn, heq⟩ := List.mem_getLast?_eq_getLast (Option.mem_def.mpr habs)
        rw [heq]
        exact List.getLast_mem hnn
      have hdig := List.all_eq_true.mp hall '\n' hmem
      exact absurd hdig (by decide)
    dsimp only
    rw [if_neg hlast]
    simp only [Bool.and_eq_true]
    exact ⟨⟨hc, hne⟩, hall⟩

/-! ## Inversion of a completed run -/

theorem send_sms_ok_inv (cfg : SmsConfig) (o : Nat → Option String)
    (cord : List Nat) (fetch : String → Nat → Except String String)
    (res : RunResult) (hrun : send_sms cfg o cord fetch = .ok res) :
    ∃ rows, cfg.customer_data = some rows ∧
      res.outcomes = runOutcomes cfg.opted_out_numbers o rows 0 ∧
      res.jobs = submittedJobs cfg.opted_out_numbers cfg.message_template rows ∧
      res.message_sids = completedSids o cord (lastRowName rows) (lastRowPhone rows) ∧
      res.polls = pollPhase fetch res.message_sids := by
  unfold send_sms at hrun
  match hd : cfg.customer_data with
  | none => rw [hd] at hrun; exact absurd hrun (by simp)
  | some rows =>
    rw [hd] at hrun
    dsimp only at hrun
    refine ⟨rows, rfl, ?_⟩
    by_cases h1 : cfg.account_sid = "" ∨ cfg.auth_token = "" ∨ cfg.twilio_phone_number = ""
    · rw [if_pos h1] at hrun; exact absurd hrun (by simp)
    · rw [if_neg h1] at hrun
      by_cases h2 : cfg.message_template = ""
      · rw [if_pos h2] at hrun; exact absurd hrun (by simp)
      · rw [if_neg h2] at hrun
        by_cases h3 : cfg.authOk = false
        · rw [if_pos h3] at hrun; exact absurd hrun (by simp)
        · rw [if_neg h3] at hrun
          have hres := Except.ok.inj hrun
          rw [← hres]
          exact ⟨rfl, rfl, rfl, rfl⟩

theorem completedSids_map_fst (o : Nat → Option String) (cord : List Nat)
    (nm ph : String) :
    (completedSids o cord nm ph).map (fun t => t.1) = cord.filterMap o := by
  induction cord with
  | nil => rfl
  | cons j js ih =>
    rw [completedSids, List.filterMap_cons, List.filterMap_cons]
    match ho : o j with
    | none => exact ih
    | some sid =>
      rw [completedSids] at ih
      dsimp only [Option.map] at ih ⊢
      rw [List.map_cons, ih]

theorem completedSids_attrib (o : Nat → Option String) (cord : List Nat)
    (nm ph : String) :
    ∀ t ∈ completedSids o cord nm ph, t.2.1 = nm ∧ t.2.2 = ph := by
  intro t ht
  rw [completedSids, List.mem_filterMap] at ht
  obtain ⟨j, _, hj⟩ := ht
  match ho : o j with
  | none => rw [ho] at hj; exact absurd hj (by simp)
  | some sid =>
    rw [ho] at hj
    dsimp only [Option.map] at hj
    have := Option.some.inj hj
    rw [← this]
    exact ⟨rfl, rfl⟩

theorem pollPhase_map_fst (fetch : String → Nat → Except String String)
    (sids : List (String × String × String)) :
    (pollPhase fetch sids).map (fun t => t.1) = sids.map (fun t => t.1) := by
  rw [pollPhase, List.map_map]
  rfl

theorem send_sms_runs (cfg : SmsConfig) (o : Nat → Option String)
    (cord : List Nat) (fetch : String → Nat → Except String String)
    (rows : List Recipient) (hd : cfg.customer_data = some rows)
    (h1 : cfg.account_sid ≠ "") (h2 : cfg.auth_token ≠ "")
    (h3 : cfg.twilio_phone_number ≠ "") (h4 : cfg.message_template ≠ "")
    (h5 : cfg.authOk = true) :
    send_sms cfg o cord fetch =
      .ok
        { outcomes := runOutcomes cfg.opted_out_numbers o rows 0
          jobs := submittedJobs cfg.opted_out_numbers cfg.message_template rows
          message_sids := completedSids o cord (lastRowName rows) (lastRowPhone rows)
          polls := pollPhase fetch
            (completedSids o cord (lastRowName rows) (lastRowPhone rows)) } := by
  unfold send_sms
  rw [hd]
  dsimp only
  rw [if_neg (by tauto)]
  rw [if_neg h4]
  rw [if_neg (by simp [h5])]

/-! ## Claim theorems -/

/-- C1 (confirmed): for every input recipient list of size N, a completed run's
per-recipient outcome trace contains exactly N entries, one `SendOutcome` per
input recipient — never zero and never duplicate, since the i-th entry carries
the i-th input recipient — and the trace preserves the input order and is
independent of the completion order `cord` in which the dispatch futures
finish. -/
theorem report_one_entry_per_recipient (cfg : SmsConfig)
    (rows : List Recipient) (o : Nat → Option String) (cord cord' : List Nat)
    (fetch : String → Nat → Except String String) (res res' : RunResult)
    (hd : cfg.customer_data = some rows)
    (hrun : send_sms cfg o cord fetch = .ok res)
    (hrun' : send_sms cfg o cord' fetch = .ok res') :
    res.outcomes.length = rows.length ∧
    res.outcomes.map Prod.fst = rows ∧
    res'.outcomes = res.outcomes := by
  obtain ⟨rows1, hd1, ho1, -, -, -⟩ := send_sms_ok_inv cfg o cord fetch res hrun
  obtain ⟨rows2, hd2, ho2, -, -, -⟩ := send_sms_ok_inv cfg o cord' fetch res' hrun'
  rw [hd] at hd1 hd2
  obtain rfl : rows = rows1 := Option.some.inj hd1
  obtain rfl : rows = rows2 := Option.some.inj hd2
  rw [ho1, ho2]
  exact ⟨runOutcomes_length _ _ _ _, runOutcomes_map_fst _ _ _ _, rfl⟩

/-- Witness for C1 at a concrete one-recipient run. -/
theorem report_one_entry_per_recipient_witness :
    ([((⟨"Alice", "+1"⟩ : Recipient), SendOutcome.sent "SM1")]).length =
      ([(⟨"Alice", "+1"⟩ : Recipient)]).length ∧
    ([((⟨"Alice", "+1"⟩ : Recipient), SendOutcome.sent "SM1")]).map Prod.fst =
      [(⟨"Alice", "+1"⟩ : Recipient)] ∧
    ([((⟨"Alice", "+1"⟩ : Recipient), SendOutcome.sent "SM1")] :
        List (Recipient × SendOutcome)) =
      [(⟨"Alice", "+1"⟩, SendOutcome.sent "SM1")] := by
  have h := report_one_entry_per_recipient
    ⟨some [⟨"Alice", "+1"⟩], "s", "t", "p", "Hi", true, []⟩
    [⟨"Alice", "+1"⟩] (fun _ => some "SM1") [0] [0]
    (fun _ _ => Except.ok "delivered")
    { outcomes := [(⟨"Alice", "+1"⟩, SendOutcome.sent "SM1")]
      jobs := [("Alice", "+1", "Hi")]
      message_sids := [("SM1", "Alice", "+1")]
      polls := [("SM1", "Alice", "+1", PollResult.delivered, 1)] }
    { outcomes := [(⟨"Alice", "+1"⟩, SendOutcome.sent "SM1")]
      jobs := [("Alice", "+1", "Hi")]
      message_sids := [("SM1", "Alice", "+1")]
      polls := [("SM1", "Alice", "+1", PollResult.delivered, 1)] }
    rfl (by decide) (by decide)
  exact ⟨h.1, h.2.1, h.2.2⟩

/-- C2 counterexample: the phone string of the single recipient does not match
the spec's `^\+[0-9]+$` (it carries a trailing newline), yet the run does not
skip it: a provider send call is submitted for it and its outcome is a send,
because Python's `re.match(r'^\+\d+$', ...)` lets `$` match just before a
trailing newline. -/
theorem spec_invalid_phone_dispatched_cx :
    matchesSpecPhoneRegex "+1\n" = false ∧
    is_valid_phone_number "+1\n" = true ∧
    submittedJobs [] "Hi" [⟨"Eve", "+1\n"⟩] = [("Eve", "+1\n", "Hi")] ∧
    runOutcomes [] (fun _ => some "SM9") [⟨"Eve", "+1\n"⟩] 0 =
      [(⟨"Eve", "+1\n"⟩, SendOutcome.sent "SM9")] := by decide

/-- C2 (amended): every recipient whose phone fails the code's validation
`re.match(r'^\+\d+$', phone)` — which accepts exactly the strings matching
`^\+[0-9]+$` plus those with a single trailing newline (and, in Python,
non-ASCII digits) — is classified `SkippedInvalidPhone` and no provider send
call carries its phone; moreover every phone matching the spec's
`^\+[0-9]+$` passes the code's validation. -/
theorem code_invalid_phone_skipped_no_call (opted_out : List String)
    (template : String) (o : Nat → Option String) (rows : List Recipient)
    (j i : Nat) (r : Recipient) (hr : rows[i]? = some r)
    (hv : is_valid_phone_number r.phone = false) :
    (runOutcomes opted_out o rows j)[i]? =
      some (r, SendOutcome.skippedInvalidPhone) ∧
    (∀ t ∈ submittedJobs opted_out template rows, t.2.1 ≠ r.phone) ∧
    (∀ s, matchesSpecPhoneRegex s = true → is_valid_phone_number s = true) := by
  refine ⟨?_, ?_, fun s hs => matchesSpecPhoneRegex_valid s hs⟩
  · rw [runOutcomes_getElem?, hr]
    dsimp only [Option.map]
    rw [classifyOutcome, if_pos hv]
  · intro t ht heq
    have hval := (submittedJobs_phone_ok opted_out template rows t ht).1
    rw [heq, hv] at hval
    exact absurd hval (by decide)

/-- Witness for C2 (amended) at a concrete invalid-phone recipient. -/
theorem code_invalid_phone_skipped_no_call_witness :
    (runOutcomes [] (fun _ => some "SM1") [⟨"Bob", "bad"⟩] 0)[0]? =
      some (⟨"Bob", "bad"⟩, SendOutcome.skippedInvalidPhone) ∧
    (∀ t ∈ submittedJobs [] "Hi" [(⟨"Bob", "bad"⟩ : Recipient)],
      t.2.1 ≠ "bad") := by
  have h := code_invalid_phone_skipped_no_call [] "Hi" (fun _ => some "SM1")
    [⟨"Bob", "bad"⟩] 0 0 ⟨"Bob", "bad"⟩ rfl (by decide)
  exact ⟨h.1, h.2.1⟩

/-- C3 counterexample: the phone `"bad"` is a member of the opt-out set at
filter time, yet the run classifies its recipient as `SkippedInvalidPhone`,
not `SkippedOptedOut`, because the source checks phone validity first. -/
theorem opted_out_invalid_phone_cx :
    ("bad" ∈ (["bad"] : List String)) ∧
    runOutcomes ["bad"] (fun _ => none) [⟨"Eve", "bad"⟩] 0 =
      [(⟨"Eve", "bad"⟩, SendOutcome.skippedInvalidPhone)] ∧
    SendOutcome.skippedInvalidPhone ≠ SendOutcome.skippedOptedOut := by decide

/-- C3 (amended): a recipient whose phone is in the opt-out set at filter time
is classified `SkippedOptedOut` when the phone is syntactically valid, and
`SkippedInvalidPhone` when it is not (validity is checked first); in both
cases no provider send call carries that phone. -/
theorem opted_out_skipped_no_call (opted_out : List String) (template : String)
    (o : Nat → Option String) (rows : List Recipient) (j i : Nat)
    (r : Recipient) (hr : rows[i]? = some r)
    (hopt : opted_out.contains r.phone = true) :
    (is_valid_phone_number r.phone = true →
      (runOutcomes opted_out o rows j)[i]? =
        some (r, SendOutcome.skippedOptedOut)) ∧
    (is_valid_phone_number r.phone = false →
      (runOutcomes opted_out o rows j)[i]? =
        some (r, SendOutcome.skippedInvalidPhone)) ∧
    (∀ t ∈ submittedJobs opted_out template rows, t.2.1 ≠ r.phone) := by
  refine ⟨?_, ?_, ?_⟩
  · intro hv
    rw [runOutcomes_getElem?, hr]
    dsimp only [Option.map]
    rw [classifyOutcome, if_neg (by rw [hv]; decide), if_pos hopt]
  · intro hv
    rw [runOutcomes_getElem?, hr]
    dsimp only [Option.map]
    rw [classifyOutcome, if_pos hv]
  · intro t ht heq
    have hout := (submittedJobs_phone_ok opted_out template rows t ht).2
    rw [heq, hopt] at hout
    exact absurd hout (by decide)

/-- Witness for C3 (amended) at a concrete valid opted-out recipient. -/
theorem opted_out_skipped_no_call_witness :
    (runOutcomes ["+2"] (fun _ => some "SM1") [⟨"Carl", "+2"⟩] 0)[0]? =
      some (⟨"Carl", "+2"⟩, SendOutcome.skippedOptedOut) ∧
    (∀ t ∈ submittedJobs ["+2"] "Hi" [(⟨"Carl", "+2"⟩ : Recipient)],
      t.2.1 ≠ "+2") := by
  have h := opted_out_skipped_no_call ["+2"] "Hi" (fun _ => some "SM1")
    [⟨"Carl", "+2"⟩] 0 0 ⟨"Carl", "+2"⟩ rfl (by decide)
  exact ⟨h.1 (by decide), h.2.2⟩

/-- C4 (confirmed): template rendering is the pure function `renderTemplate`
of the template and the recipient's name — rendering twice yields identical
output; a template without any `{Name}` occurrence passes through verbatim
(unknown placeholder text included, with no failure path); each `{Name}`
occurrence is replaced by the name exactly once, witnessed by the occurrence
equation and the length equation counting one substitution per occurrence. -/
theorem render_pure_replaces_each_occurrence (name t rest : List Char) :
    renderTemplate name t = renderTemplate name t ∧
    (containsNamePat t = false → renderTemplate name t = t) ∧
    renderTemplate name (namePat ++ rest) = name ++ renderTemplate name rest ∧
    (renderTemplate name t).length + namePat.length * countNamePat t =
      t.length + name.length * countNamePat t :=
  ⟨rfl, renderTemplate_of_not_contains name t, renderTemplate_pat_cons name rest,
    renderTemplate_length name t⟩

/-- Witness for C4: a template whose only placeholder is unknown is rendered
verbatim, and a `{Name}` occurrence is substituted once. -/
theorem render_pure_replaces_each_occurrence_witness :
    renderTemplate "Alice".toList "Hi {Other}!".toList = "Hi {Other}!".toList ∧
    renderTemplate "Alice".toList (namePat ++ "!".toList) =
      "Alice".toList ++ renderTemplate "Alice".toList "!".toList := by
  have h := render_pure_replaces_each_occurrence "Alice".toList
    "Hi {Other}!".toList "!".toList
  exact ⟨h.2.1 (by decide), h.2.2.1⟩

/-- C5 (confirmed): the status-poll sequence for a sent message stops at the
first terminal status or after exactly ten fetch attempts, never more: a
fetched `"delivered"` ends it at once with the Delivered path, a fetched
`"failed"` or `"undelivered"` ends it at once with the Failed path, any other
status keeps polling, ten non-terminal fetches end with the Unknown path after
exactly ten calls, and the result never depends on what an eleventh fetch
would return. -/
theorem poll_stops_at_first_terminal_or_ten (fetch : Nat → Except String String) :
    ((check_message_status fetch).2 ≤ 10) ∧
    (∀ i, i < 10 →
      (∀ j, j < i → ∃ st, fetch j = .ok st ∧ nonTerminalStatus st) →
      ((fetch i = .ok "delivered" →
          check_message_status fetch = (.delivered, i + 1)) ∧
       (∀ st, fetch i = .ok st → st ∈ ["failed", "undelivered"] →
          check_message_status fetch = (.failedStatus, i + 1)))) ∧
    ((∀ j, j < 10 → ∃ st, fetch j = .ok st ∧ nonTerminalStatus st) →
      check_message_status fetch = (.unknownStatus, 10)) ∧
    (∀ fetch2, (∀ j, j < 10 → fetch j = fetch2 j) →
      check_message_status fetch = check_message_status fetch2) ∧
    deliveryOutcome .delivered = .Delivered ∧
    deliveryOutcome .failedStatus = .Failed ∧
    deliveryOutcome .unknownStatus = .Unknown := by
  refine ⟨?_, ?_, ?_, ?_, rfl, rfl, rfl⟩
  · exact checkStatusLoop_calls_le fetch 10 0
  · intro i hi hpre
    have hadv : checkStatusLoop fetch 10 0 = checkStatusLoop fetch (10 - i) i := by
      have h0 := checkStatusLoop_advance fetch i 10 0 (by omega)
        (fun j hj => by
          obtain ⟨st, hst, hnt⟩ := hpre j hj
          refine ⟨st, ?_, hnt⟩
          rw [Nat.zero_add]
          exact hst)
      rw [Nat.zero_add] at h0
      exact h0
    obtain ⟨m, hm⟩ : ∃ m, 10 - i = m + 1 := ⟨10 - i - 1, by omega⟩
    constructor
    · intro hdel
      rw [check_message_status, hadv, hm, checkStatusLoop, hdel]
      dsimp only
      rw [if_pos rfl]
    · intro st hst hmem
      have hstne : ¬(st = "delivered") := by
        simp only [List.mem_cons, List.mem_singleton] at hmem
        rcases hmem with rfl | rfl | h
        · decide
        · decide
        · exact absurd h (List.not_mem_nil st)
      rw [check_message_status, hadv, hm, checkStatusLoop, hst]
      dsimp only
      rw [if_neg hstne, if_pos hmem]
  · intro hall
    have hadv : checkStatusLoop fetch 10 0 = checkStatusLoop fetch 0 10 := by
      have h0 := checkStatusLoop_advance fetch 10 10 0 (by omega)
        (fun j hj => by
          obtain ⟨st, hst, hnt⟩ := hall j hj
          refine ⟨st, ?_, hnt⟩
          rw [Nat.zero_add]
          exact hst)
      rw [Nat.zero_add] at h0
      exact h0
    rw [check_message_status, hadv, checkStatusLoop]
  · intro fetch2 hagree
    exact checkStatusLoop_congr fetch fetch2 10 0
      (fun j h1 h2 => hagree j (by omega))

/-- Witness for C5: ten `"queued"` fetches end with the Unknown path after
exactly ten calls. -/
theorem poll_stops_at_first_terminal_or_ten_witness :
    check_message_status (fun _ => Except.ok "queued") =
      (PollResult.unknownStatus, 10) :=
  (poll_stops_at_first_terminal_or_ten (fun _ => Except.ok "queued")).2.2.1
    (fun j hj => ⟨"queued", rfl, by decide⟩)

/-- C6 (confirmed): a transport/provider error raised during a poll attempt
aborts the loop into the `except` branch at once — the erroring fetch is the
last one, the result does not depend on any later fetch — and the outcome for
that recipient is the Unknown classification (the source returns the same
`False` as the exhausted-budget path, with no terminal status observed). -/
theorem poll_error_unknown_and_abandoned (fetch : Nat → Except String String)
    (i : Nat) (e : String) (hi : i < 10)
    (hpre : ∀ j, j < i → ∃ st, fetch j = .ok st ∧ nonTerminalStatus st)
    (herr : fetch i = .error e) :
    check_message_status fetch = (.fetchError, i + 1) ∧
    deliveryOutcome (check_message_status fetch).1 = .Unknown ∧
    statusBool (check_message_status fetch).1 =
      statusBool PollResult.unknownStatus ∧
    (∀ fetch2, (∀ j, j ≤ i → fetch j = fetch2 j) →
      check_message_status fetch2 = (.fetchError, i + 1)) := by
  have hmain : ∀ g : Nat → Except String String,
      (∀ j, j < i → ∃ st, g j = .ok st ∧ nonTerminalStatus st) →
      g i = .error e → check_message_status g = (.fetchError, i + 1) := by
    intro g hgpre hgerr
    have hadv : checkStatusLoop g 10 0 = checkStatusLoop g (10 - i) i := by
      have h0 := checkStatusLoop_advance g i 10 0 (by omega)
        (fun j hj => by
          obtain ⟨st, hst, hnt⟩ := hgpre j hj
          refine ⟨st, ?_, hnt⟩
          rw [Nat.zero_add]
          exact hst)
      rw [Nat.zero_add] at h0
      exact h0
    obtain ⟨m, hm⟩ : ∃ m, 10 - i = m + 1 := ⟨10 - i - 1, by omega⟩
    rw [check_message_status, hadv, hm, checkStatusLoop, hgerr]
  have h1 := hmain fetch hpre herr
  refine ⟨h1, by rw [h1]; rfl, by rw [h1]; rfl, ?_⟩
  intro fetch2 hagree
  refine hmain fetch2 ?_ ?_
  · intro j hj
    obtain ⟨st, hst, hnt⟩ := hpre j hj
    refine ⟨st, ?_, hnt⟩
    rw [← hagree j (by omega)]
    exact hst
  · rw [← hagree i (by omega)]
    exact herr

/-- Witness for C6: an error on the first fetch ends polling after that one
call. -/
theorem poll_error_unknown_and_abandoned_witness :
    check_message_status
        (fun j => if j = 0 then Except.error "boom" else Except.ok "queued") =
      (PollResult.fetchError, 1) :=
  (poll_error_unknown_and_abandoned
    (fun j => if j = 0 then Except.error "boom" else Except.ok "queued")
    0 "boom" (by decide) (fun j hj => absurd hj (by omega)) rfl).1

/-- C7 (confirmed): a failing provider send call is caught inside
`send_single_sms` and becomes a `SendFailed` outcome for that job alone: the
run processes every row whatever the send oracle returns (the outcome trace
always has one entry per row), a failure is converted to `SendFailed` and the
loop continues with the remaining recipients, changing the oracle anywhere but
a row's own job index never changes that row's outcome, and a run past
preflight always completes with a result instead of aborting. -/
theorem send_failure_converted_and_isolated (opted_out : List String)
    (o o2 : Nat → Option String) (j0 : Nat)
    (hagree : ∀ k, k ≠ j0 → o k = o2 k) :
    (∀ rows j, (runOutcomes opted_out o rows j).length = rows.length) ∧
    (∀ (r : Recipient) (rs : List Recipient) (j : Nat),
        is_valid_phone_number r.phone = true →
        opted_out.contains r.phone = false → o j = none →
        runOutcomes opted_out o (r :: rs) j =
          (r, SendOutcome.sendFailed) :: runOutcomes opted_out o rs (j + 1)) ∧
    (∀ rows j i, j + jobCount opted_out (rows.take i) ≠ j0 →
        (runOutcomes opted_out o rows j)[i]? =
          (runOutcomes opted_out o2 rows j)[i]?) ∧
    (∀ (cfg : SmsConfig) (rows : List Recipient) (cord : List Nat)
        (fetch : String → Nat → Except String String),
        cfg.customer_data = some rows → cfg.account_sid ≠ "" →
        cfg.auth_token ≠ "" → cfg.twilio_phone_number ≠ "" →
        cfg.message_template ≠ "" → cfg.authOk = true →
        ∃ res, send_sms cfg o cord fetch = .ok res) := by
  refine ⟨fun rows j => runOutcomes_length opted_out o rows j, ?_, ?_, ?_⟩
  · intro r rs j hv hc hn
    have helig : eligibleRecipient opted_out r = true := by
      rw [eligibleRecipient, hv, hc]
      rfl
    have hcl : classifyOutcome opted_out o j r = SendOutcome.sendFailed := by
      rw [classifyOutcome, if_neg (by rw [hv]; decide),
        if_neg (by rw [hc]; decide), hn]
    rw [runOutcomes, if_pos helig, hcl]
  · intro rows j i hne
    rw [runOutcomes_getElem?, runOutcomes_getElem?]
    cases hr : rows[i]? with
    | none => rfl
    | some r =>
      dsimp only [Option.map]
      have hoeq : o (j + jobCount opted_out (rows.take i)) =
          o2 (j + jobCount opted_out (rows.take i)) := hagree _ hne
      rw [classifyOutcome, classifyOutcome, hoeq]
  · intro cfg rows cord fetch hd h1 h2 h3 h4 h5
    exact ⟨_, send_sms_runs cfg o cord fetch rows hd h1 h2 h3 h4 h5⟩

/-- Witness for C7: a run whose only send fails still yields one entry, a
`SendFailed`, and continues. -/
theorem send_failure_converted_and_isolated_witness :
    runOutcomes [] (fun _ => none) [⟨"Alice", "+1"⟩] 0 =
      (⟨"Alice", "+1"⟩, SendOutcome.sendFailed) ::
        runOutcomes [] (fun _ => none) [] 1 :=
  (send_failure_converted_and_isolated [] (fun _ => none) (fun _ => none) 0
      (fun k hk => rfl)).2.1 ⟨"Alice", "+1"⟩ [] 0 (by decide) (by decide) rfl

/-- C8 counterexample: a two-row run where Alice's send succeeds and Bob is
skipped for an invalid phone produces a `message_sids` tuple — the record to
which the status check and its delivery classification are attached — that
names Bob, whose `SendOutcome` is `SkippedInvalidPhone`, not `Sent`: the
`as_completed` loop reads the stale loop variable `row`. -/
theorem delivery_attached_to_unsent_cx :
    send_sms ⟨some [⟨"Alice", "+1"⟩, ⟨"Bob", "bad"⟩], "s", "t", "p", "Hi",
        true, []⟩ (fun _ => some "SM1") [0] (fun _ _ => Except.ok "queued") =
      .ok { outcomes := [(⟨"Alice", "+1"⟩, SendOutcome.sent "SM1"),
                         (⟨"Bob", "bad"⟩, SendOutcome.skippedInvalidPhone)]
            jobs := [("Alice", "+1", "Hi")]
            message_sids := [("SM1", "Bob", "bad")]
            polls := [("SM1", "Bob", "bad", PollResult.unknownStatus, 10)] } ∧
    SendOutcome.skippedInvalidPhone ≠ SendOutcome.sent "SM1" := by
  exact ⟨rfl, by decide⟩

/-- C8 (amended): exactly one status-poll sequence is run per successful send
and none per failed send — the polled SIDs are exactly the SIDs the send
oracle returned, each polled once — but the record each poll is attached to
names the last iterated row of `customer_data`, not the recipient whose send
succeeded, so a delivery classification can be attached to a recipient whose
`SendOutcome` is not `Sent`. -/
theorem one_poll_per_successful_send (cfg : SmsConfig) (rows : List Recipient)
    (o : Nat → Option String) (cord : List Nat)
    (fetch : String → Nat → Except String String) (res : RunResult)
    (hd : cfg.customer_data = some rows)
    (hrun : send_sms cfg o cord fetch = .ok res)
    (hperm : List.Perm cord (List.range (jobCount cfg.opted_out_numbers rows))) :
    res.message_sids.map (fun t => t.1) = cord.filterMap o ∧
    List.Perm (res.message_sids.map (fun t => t.1))
      ((List.range (jobCount cfg.opted_out_numbers rows)).filterMap o) ∧
    res.polls.map (fun t => t.1) = res.message_sids.map (fun t => t.1) ∧
    res.polls.length = res.message_sids.length ∧
    (∀ t ∈ res.message_sids,
      t.2.1 = lastRowName rows ∧ t.2.2 = lastRowPhone rows) := by
  obtain ⟨rows1, hd1, -, -, hsids, hpolls⟩ :=
    send_sms_ok_inv cfg o cord fetch res hrun
  rw [hd] at hd1
  obtain rfl : rows = rows1 := Option.some.inj hd1
  refine ⟨?_, ?_, ?_, ?_, ?_⟩
  · rw [hsids]
    exact completedSids_map_fst o cord _ _
  · rw [hsids, completedSids_map_fst]
    exact hperm.filterMap o
  · rw [hpolls]
    exact pollPhase_map_fst fetch res.message_sids
  · rw [hpolls, pollPhase]
    exact List.length_map _ _
  · rw [hsids]
    exact completedSids_attrib o cord _ _

/-- Witness for C8 (amended): in the two-row run the single poll targets the
single successful SID. -/
theorem one_poll_per_successful_send_witness :
    ({ outcomes := [(⟨"Alice", "+1"⟩, SendOutcome.sent "SM1"),
                    (⟨"Bob", "bad"⟩, SendOutcome.skippedInvalidPhone)]
       jobs := [("Alice", "+1", "Hi")]
       message_sids := [("SM1", "Bob", "bad")]
       polls := [("SM1", "Bob", "bad", PollResult.unknownStatus, 10)] } :
        RunResult).message_sids.map (fun t => t.1) =
      List.filterMap (fun _ => some "SM1") [0] :=
  (one_poll_per_successful_send
    ⟨some [⟨"Alice", "+1"⟩, ⟨"Bob", "bad"⟩], "s", "t", "p", "Hi", true, []⟩
    [⟨"Alice", "+1"⟩, ⟨"Bob", "bad"⟩] (fun _ => some "SM1") [0]
    (fun _ _ => Except.ok "queued")
    { outcomes := [(⟨"Alice", "+1"⟩, SendOutcome.sent "SM1"),
                   (⟨"Bob", "bad"⟩, SendOutcome.skippedInvalidPhone)]
      jobs := [("Alice", "+1", "Hi")]
      message_sids := [("SM1", "Bob", "bad")]
      polls := [("SM1", "Bob", "bad", PollResult.unknownStatus, 10)] }
    rfl rfl (by decide)).1

/-- C9 counterexample: an empty-but-loaded recipient list passes every
preflight check — the source only tests `customer_data is None`, not
emptiness — so the run reaches the dispatch phase (it returns a completed,
empty result rather than a `PreflightError`). -/
theorem empty_list_passes_preflight_cx :
    send_sms ⟨some [], "s", "t", "p", "Hi", true, []⟩ (fun _ => none) []
        (fun _ _ => Except.ok "queued") =
      .ok { outcomes := [], jobs := [], message_sids := [], polls := [] } := rfl

/-- C9 (amended): a run leaves the idle state only when customer data has
been loaded (`customer_data` is not `None` — emptiness is not checked), all
three credential fields are non-empty, the template is non-empty, and the
credential check succeeds; the failure modes are distinguished as
missing-data, missing-credentials, missing-template and authentication
errors, in that source order.  An empty loaded list passes preflight and
reaches dispatch with zero jobs and an empty report. -/
theorem preflight_errors_distinguished (cfg : SmsConfig)
    (o : Nat → Option String) (cord : List Nat)
    (fetch : String → Nat → Except String String) :
    (cfg.customer_data = none →
      send_sms cfg o cord fetch = .error .missingData) ∧
    (∀ rows, cfg.customer_data = some rows →
      (cfg.account_sid = "" ∨ cfg.auth_token = "" ∨
        cfg.twilio_phone_number = "") →
      send_sms cfg o cord fetch = .error .missingCredentials) ∧
    (∀ rows, cfg.customer_data = some rows → cfg.account_sid ≠ "" →
      cfg.auth_token ≠ "" → cfg.twilio_phone_number ≠ "" →
      cfg.message_template = "" →
      send_sms cfg o cord fetch = .error .missingTemplate) ∧
    (∀ rows, cfg.customer_data = some rows → cfg.account_sid ≠ "" →
      cfg.auth_token ≠ "" → cfg.twilio_phone_number ≠ "" →
      cfg.message_template ≠ "" → cfg.authOk = false →
      send_sms cfg o cord fetch = .error .authFailed) ∧
    (∀ rows, cfg.customer_data = some rows → cfg.account_sid ≠ "" →
      cfg.auth_token ≠ "" → cfg.twilio_phone_number ≠ "" →
      cfg.message_template ≠ "" → cfg.authOk = true →
      ∃ res, send_sms cfg o cord fetch = .ok res ∧
        res.outcomes.length = rows.length) := by
  refine ⟨?_, ?_, ?_, ?_, ?_⟩
  · intro hd
    unfold send_sms
    rw [hd]
  · intro rows hd hcred
    unfold send_sms
    rw [hd]
    dsimp only
    rw [if_pos hcred]
  · intro rows hd h1 h2 h3 ht
    unfold send_sms
    rw [hd]
    dsimp only
    rw [if_neg (by tauto), if_pos ht]
  · intro rows hd h1 h2 h3 ht ha
    unfold send_sms
    rw [hd]
    dsimp only
    rw [if_neg (by tauto), if_neg ht, if_pos ha]
  · intro rows hd h1 h2 h3 ht ha
    exact ⟨_, send_sms_runs cfg o cord fetch rows hd h1 h2 h3 ht ha,
      runOutcomes_length _ _ _ _⟩

/-- Witness for C9 (amended): a run with no loaded data reports the
missing-data error. -/
theorem preflight_errors_distinguished_witness :
    send_sms ⟨none, "s", "t", "p", "Hi", true, []⟩ (fun _ => none) []
        (fun _ _ => Except.ok "queued") =
      .error PreflightError.missingData :=
  (preflight_errors_distinguished ⟨none, "s", "t", "p", "Hi", true, []⟩
    (fun _ => none) [] (fun _ _ => Except.ok "queued")).1 rfl

/-- C10 (confirmed): every tuple appended to `message_sids` records the
`Name` and `Phone Number` of the row the submission loop iterated last — the
stale loop variable `row` — not of the recipient the completed future's
message was sent to, so every status check of the run is attributed to that
single last-iterated row. -/
theorem sids_attributed_to_last_row (cfg : SmsConfig) (rows : List Recipient)
    (o : Nat → Option String) (cord : List Nat)
    (fetch : String → Nat → Except String String) (res : RunResult)
    (rlast : Recipient) (hd : cfg.customer_data = some rows)
    (hrun : send_sms cfg o cord fetch = .ok res)
    (hlast : rows.getLast? = some rlast) :
    ∀ t ∈ res.message_sids, t.2.1 = rlast.name ∧ t.2.2 = rlast.phone := by
  obtain ⟨rows1, hd1, -, -, hsids, -⟩ :=
    send_sms_ok_inv cfg o cord fetch res hrun
  rw [hd] at hd1
  obtain rfl : rows = rows1 := Option.some.inj hd1
  intro t ht
  rw [hsids] at ht
  have h := completedSids_attrib o cord (lastRowName rows) (lastRowPhone rows) t ht
  have hn : lastRowName rows = rlast.name := by
    unfold lastRowName
    rw [hlast]
  have hp : lastRowPhone rows = rlast.phone := by
    unfold lastRowPhone
    rw [hlast]
  rw [hn, hp] at h
  exact h

/-- Witness for C10: with two successfully sent rows and reversed completion
order, both tuples name the last row, Bob. -/
theorem sids_attributed_to_last_row_witness :
    ("SM1", "Bob", "+2").2.1 = (⟨"Bob", "+2"⟩ : Recipient).name ∧
    ("SM1", "Bob", "+2").2.2 = (⟨"Bob", "+2"⟩ : Recipient).phone :=
  sids_attributed_to_last_row
    ⟨some [⟨"Alice", "+1"⟩, ⟨"Bob", "+2"⟩], "s", "t", "p", "Hi", true, []⟩
    [⟨"Alice", "+1"⟩, ⟨"Bob", "+2"⟩]
    (fun j => if j = 0 then some "SM0" else some "SM1") [1, 0]
    (fun _ _ => Except.ok "delivered")
    { outcomes := [(⟨"Alice", "+1"⟩, SendOutcome.sent "SM0"),
                   (⟨"Bob", "+2"⟩, SendOutcome.sent "SM1")]
      jobs := [("Alice", "+1", "Hi"), ("Bob", "+2", "Hi")]
      message_sids := [("SM1", "Bob", "+2"), ("SM0", "Bob", "+2")]
      polls := [("SM1", "Bob", "+2", PollResult.delivered, 1),
                ("SM0", "Bob", "+2", PollResult.delivered, 1)] }
    ⟨"Bob", "+2"⟩ rfl rfl rfl ("SM1", "Bob", "+2") (by decide)
